import Mathlib

/-!
Verification of the secret-resolution pipeline of the repository
(`src/settings.py`, `src/utils.py`).

The Python source is shallowly embedded as follows:

* Python exceptions become values of the inductive type `PyError`
  (`ValueError`, `KeyError`, botocore `ClientError`, and generic
  third-party exceptions carrying their message).
* Raw configuration values (which in Python may be `None`, `bool`,
  `str` or another non-string type) become `RawValue`.
* `BaseConfig.resolve_secrets` (settings.py lines 22-41) becomes
  `resolve_secrets`, parametrised by the secret field mapping and by a
  stateful backend-fetch oracle `fetch : BackendKind → String → σ →
  Except PyError String × σ`; threading the state `σ` through the
  resolver lets theorems count backend invocations.
* The `retry` decorator (utils.py lines 15-34) becomes `retryExec`,
  where the wrapped callable is an oracle `op : Nat → Except E α`
  giving the outcome of the (i+1)-th invocation; delays are modelled
  as exact rationals (the source multiplies floats, and the default
  policy 0.25 · 2.0^i is exact in binary floating point).
* `aws_secret_helper`, `gcp_secret_helper`, `azure_secret_helper`
  (utils.py lines 37-91) become functions of the reference plus an
  oracle describing the remote store's response; each returns the
  result together with the list of emitted log records, so that
  non-disclosure of secrets in logs can be stated.
* `get_config` (settings.py lines 94-132) becomes `get_config` over an
  explicit `GetConfigState` holding `os.environ`, the `lru_cache`
  table, a fresh-object counter (object identity is modelled by the
  numeric id handed out at construction) and an instrumentation
  counter of resolver invocations.  `functools.lru_cache` stores an
  entry only when the call returns normally; a raised exception caches
  nothing, which the embedding mirrors.
-/

/-- Python exceptions relevant to the pipeline. -/
inductive PyError where
  | valueError (msg : String)
  | keyError (key : String)
  | clientError (code : String) (msg : String)
  | exn (msg : String)
deriving DecidableEq

/-- Log levels used by the helpers. -/
inductive LogLevel where
  | debug
  | warning
  | error
deriving DecidableEq

/-- One emitted log record. -/
structure LogRec where
  level : LogLevel
  msg : String
deriving DecidableEq

/-- A raw configuration value, before secret resolution: Python `None`,
a `bool`, a `str`, or some other non-string value (represented by `int`). -/
inductive RawValue where
  | null
  | bool (b : Bool)
  | int (n : Int)
  | str (s : String)
deriving DecidableEq

/-- The three remote secret stores of `_get_secret_field_mapping`. -/
inductive BackendKind where
  | aws
  | azure
  | gcp
deriving DecidableEq

/-- The value of `cls._get_secret_field_mapping()`: one field-name list
per backend kind. -/
structure SecretMapping where
  aws : List String
  azure : List String
  gcp : List String
deriving DecidableEq

/-- The `if field_name in secret_mapping.get("aws", []) … elif … elif …`
chain of `resolve_secrets` (settings.py lines 32-37): aws is checked
first, then azure, then gcp. -/
def classify (m : SecretMapping) (name : String) : Option BackendKind :=
  if name ∈ m.aws then some BackendKind.aws
  else if name ∈ m.azure then some BackendKind.azure
  else if name ∈ m.gcp then some BackendKind.gcp
  else Option.none

/-- The guard `if not value or not isinstance(value, str)` of
`resolve_secrets` (settings.py line 28): only non-empty strings reach
the classification chain. -/
def isSecretEligible : RawValue → Bool
  | RawValue.str s => decide (s ≠ "")
  | _ => false

/-- The string payload of an eligible value. -/
def RawValue.asString : RawValue → String
  | RawValue.str s => s
  | _ => ""

/-- `BaseConfig.resolve_secrets` (settings.py lines 22-41).  The raw
payload is an ordered field list; `fetch` is the backend helper call,
threaded through an instrumentation state `σ`.  A raised helper
exception propagates out of the loop at once, so the whole call either
returns the fully resolved list or the error of the first failing
field — never a partial mapping. -/
def resolve_secrets {σ : Type} (m : SecretMapping)
    (fetch : BackendKind → String → σ → Except PyError String × σ) :
    List (String × RawValue) → σ → Except PyError (List (String × RawValue)) × σ
  | [], s => (Except.ok [], s)
  | (name, v) :: rest, s =>
    if isSecretEligible v then
      match classify m name with
      | some k =>
        match fetch k v.asString s with
        | (Except.ok sec, s1) =>
          ((resolve_secrets m fetch rest s1).1.map
             (fun l => (name, RawValue.str sec) :: l),
           (resolve_secrets m fetch rest s1).2)
        | (Except.error e, s1) => (Except.error e, s1)
      | Option.none =>
        ((resolve_secrets m fetch rest s).1.map (fun l => (name, v) :: l),
         (resolve_secrets m fetch rest s).2)
    else
      ((resolve_secrets m fetch rest s).1.map (fun l => (name, v) :: l),
       (resolve_secrets m fetch rest s).2)

/-- The loop body of the `retry` decorator (utils.py lines 15-34).
`op i` is the outcome of the (i+1)-th invocation of the wrapped
callable; `remaining` counts the loop iterations still allowed; `wait`
is the current sleep duration.  Returns the overall outcome (Python
returns `None` when `range(attempts)` is empty, hence the `Option`),
the number of invocations performed, and the list of sleep durations
in order. -/
def retryGo {α E : Type} (op : Nat → Except E α) (backoff : ℚ) :
    Nat → Nat → ℚ → Except E (Option α) × Nat × List ℚ
  | _, 0, _ => (Except.ok Option.none, 0, [])
  | i, r + 1, wait =>
    match op i with
    | Except.ok v => (Except.ok (some v), 1, [])
    | Except.error e =>
      if r = 0 then (Except.error e, 1, [])
      else
        ((retryGo op backoff (i + 1) r (wait * backoff)).1,
         (retryGo op backoff (i + 1) r (wait * backoff)).2.1 + 1,
         wait :: (retryGo op backoff (i + 1) r (wait * backoff)).2.2)

/-- The `retry(attempts, delay, backoff)` wrapper applied to a
callable: run the loop from invocation 0 with the initial delay. -/
def retryExec {α E : Type} (op : Nat → Except E α) (attempts : Nat)
    (delay backoff : ℚ) : Except E (Option α) × Nat × List ℚ :=
  retryGo op backoff 0 attempts delay

/-- The response of `client.get_secret_value` (utils.py line 40):
`SecretString` is an optional string, `SecretBinary` an optional byte
string represented here by its UTF-8 decoding. -/
structure AwsResponse where
  secretString : Option String
  secretBinary : Option String
deriving DecidableEq

/-- Outcome of the `get_secret_value` network call: a response object,
or a botocore `ClientError` with its error code and message. -/
inductive AwsCall where
  | success (r : AwsResponse)
  | clientError (code : String) (msg : String)
deriving DecidableEq

/-- `aws_secret_helper` (utils.py lines 37-58), as a function of the
reference and of the remote call's outcome; returns the result and the
log records emitted.  Python truthiness: `if not secret_value` treats
an absent and an empty `SecretString` alike, and `if secret_binary`
requires a non-empty byte string. -/
def aws_secret_helper (value : String) (call : AwsCall) :
    Except PyError String × List LogRec :=
  match call with
  | AwsCall.success r =>
    if r.secretString.getD "" ≠ "" then
      (Except.ok (r.secretString.getD ""),
       [⟨LogLevel.debug, "Fetched secret from AWS Secrets Manager: " ++ value⟩])
    else if r.secretBinary.getD "" ≠ "" then
      (Except.ok (r.secretBinary.getD ""),
       [⟨LogLevel.debug, "Fetched secret from AWS Secrets Manager: " ++ value⟩])
    else
      (Except.error (PyError.valueError
        ("AWS secret " ++ value ++ " has no SecretString or SecretBinary")), [])
  | AwsCall.clientError code msg =>
    if code = "ResourceNotFoundException" then
      (Except.error (PyError.valueError ("AWS secret not found: " ++ value)),
       [⟨LogLevel.error, "AWS secret not found: " ++ value⟩])
    else
      (Except.error (PyError.clientError code msg),
       [⟨LogLevel.error, "Error fetching AWS secret " ++ value ++ ": " ++ msg⟩])

/-- Outcome of `client.access_secret_version` for a fully-qualified
secret name: the decoded payload bytes, or an exception message. -/
inductive GcpCall where
  | success (payload : String)
  | failure (msg : String)
deriving DecidableEq

/-- `gcp_secret_helper` (utils.py lines 61-75).  `projectId` is
`os.environ.get("GOOGLE_CLOUD_PROJECT")`; `access` maps the composed
resource name to the network call's outcome.  The missing-project
`ValueError` is raised inside the `try`, so the generic
`except Exception` handler logs it before re-raising. -/
def gcp_secret_helper (value : String) (projectId : Option String)
    (access : String → GcpCall) : Except PyError String × List LogRec :=
  if projectId.getD "" = "" then
    (Except.error (PyError.valueError
      "GOOGLE_CLOUD_PROJECT environment variable must be set"),
     [⟨LogLevel.error, "Error fetching GCP secret " ++ value ++
        ": GOOGLE_CLOUD_PROJECT environment variable must be set"⟩])
  else
    match access ("projects/" ++ projectId.getD "" ++ "/secrets/" ++ value ++
        "/versions/latest") with
    | GcpCall.success payload =>
      (Except.ok payload,
       [⟨LogLevel.debug, "Fetched secret from GCP Secret Manager: " ++ value⟩])
    | GcpCall.failure msg =>
      (Except.error (PyError.exn msg),
       [⟨LogLevel.error, "Error fetching GCP secret " ++ value ++ ": " ++ msg⟩])

/-- Outcome of `client.get_secret(value).value`: the secret value, or
an exception message. -/
inductive AzureCall where
  | success (v : String)
  | failure (msg : String)
deriving DecidableEq

/-- `azure_secret_helper` (utils.py lines 78-91).  `vaultUrl` is
`os.environ.get("AZURE_KEY_VAULT_URL")`; its absence raises before the
`try` block, so no log record is emitted in that case. -/
def azure_secret_helper (value : String) (vaultUrl : Option String)
    (call : AzureCall) : Except PyError String × List LogRec :=
  if vaultUrl.getD "" = "" then
    (Except.error (PyError.valueError
      "AZURE_KEY_VAULT_URL environment variable must be set"), [])
  else
    match call with
    | AzureCall.success v =>
      (Except.ok v,
       [⟨LogLevel.debug, "Fetched secret from Azure Key Vault: " ++ value⟩])
    | AzureCall.failure msg =>
      (Except.error (PyError.exn msg),
       [⟨LogLevel.error, "Error fetching Azure secret " ++ value ++ ": " ++ msg⟩])

/-- First-match association-list lookup (models both the `lru_cache`
table and `os.environ.get`). -/
def assocLookup {α β : Type} [DecidableEq α] : List (α × β) → α → Option β
  | [], _ => Option.none
  | (k, v) :: rest, key => if k = key then some v else assocLookup rest key

/-- Python truthiness of the `env_state` argument: `None` and the empty
string are falsy (`if not env_state`). -/
def envTruthy : Option String → Bool
  | Option.none => false
  | some s => decide (s ≠ "")

/-- `env_state.lower()` (settings.py line 98), modelled character-wise
with `Char.toLower` (the selectors are plain ASCII words). -/
def strToLower (s : String) : String :=
  String.mk (s.data.map Char.toLower)

/-- Membership of the lower-cased selector in the
`{"dev": DevConfig, "prod": ProdConfig, "test": TestConfig}` dict
(settings.py line 131). -/
def recognizedEnv (s : String) : Bool :=
  s = "dev" || s = "prod" || s = "test"

/-- A `get_config` argument that passes both the truthiness check and
the dict lookup. -/
def validEnvArg : Option String → Bool
  | Option.none => false
  | some s => decide (s ≠ "") && recognizedEnv (strToLower s)

/-- The nine credential variables promoted from their `DEV_`-prefixed
names in the dev branch of `get_config` (settings.py lines 103-129). -/
def devCredKeys : List String :=
  ["AWS_ACCESS_KEY_ID", "AWS_SECRET_ACCESS_KEY", "AWS_SESSION_TOKEN",
   "AWS_REGION", "GOOGLE_APPLICATION_CREDENTIALS", "AZURE_CLIENT_ID",
   "AZURE_CLIENT_SECRET", "AZURE_TENANT_ID", "AZURE_KEY_VAULT_URL"]

/-- One promotion step: copy `DEV_<k>` to `<k>` when present and
truthy (each `if <var>:` guard skips empty values). -/
def promoteOne (environ : List (String × String)) (k : String) :
    List (String × String) :=
  match assocLookup environ ("DEV_" ++ k) with
  | some v => if v = "" then environ else (k, v) :: environ
  | Option.none => environ

/-- The whole dev-credential promotion block. -/
def promoteDevCreds (environ : List (String × String)) : List (String × String) :=
  devCredKeys.foldl promoteOne environ

/-- Process state threaded through `get_config`: `os.environ`, the
`lru_cache` table keyed by the raw (pre-lowercasing) argument, the
next fresh object id (object identity of a constructed config
instance is modelled by this id), and an instrumentation counter of
resolver invocations (each `configs[env_state]()` construction runs
`resolve_secrets`). -/
structure GetConfigState where
  environ : List (String × String)
  cache : List (Option String × Nat)
  nextId : Nat
  resolverCalls : Nat
deriving DecidableEq

/-- The message of the `ValueError` raised for a missing selector
(settings.py line 97). -/
def envStateMsg : String :=
  "ENV_STATE is not set. Possible values are: DEV, TEST, PROD"

/-- The `if env_state == "dev":` block of `get_config`: promotion runs
only for the dev selector and touches only `os.environ`. -/
def applyDevPromotion (low : String) (st : GetConfigState) : GetConfigState :=
  if low = "dev" then { st with environ := promoteDevCreds st.environ } else st

/-- `get_config` (settings.py lines 94-132) under `@lru_cache()`.
`resolve n` is the outcome of the (n+1)-th construction of a config
instance (i.e. of the pydantic validation running `resolve_secrets`);
its success or failure may vary between invocations, modelling backend
stubs.  On a cache hit the body is not run.  On a miss: an untruthy
argument (`None` or the empty string) raises `ValueError`; for `"dev"`
the credential promotion mutates `os.environ`; an unrecognized
selector raises `KeyError` from the `configs` dict lookup; otherwise
the instance is constructed, and only a normal return is stored in the
cache (`lru_cache` caches nothing when the call raises). -/
def get_config (resolve : Nat → Except PyError Unit) (env : Option String)
    (st : GetConfigState) : Except PyError Nat × GetConfigState :=
  match assocLookup st.cache env with
  | some id => (Except.ok id, st)
  | Option.none =>
    match env with
    | Option.none => (Except.error (PyError.valueError envStateMsg), st)
    | some s =>
      if s = "" then (Except.error (PyError.valueError envStateMsg), st)
      else
        if recognizedEnv (strToLower s) then
          match resolve (applyDevPromotion (strToLower s) st).resolverCalls with
          | Except.ok _ =>
            (Except.ok (applyDevPromotion (strToLower s) st).nextId,
             { applyDevPromotion (strToLower s) st with
                 cache := (env, (applyDevPromotion (strToLower s) st).nextId) ::
                   (applyDevPromotion (strToLower s) st).cache,
                 nextId := (applyDevPromotion (strToLower s) st).nextId + 1,
                 resolverCalls :=
                   (applyDevPromotion (strToLower s) st).resolverCalls + 1 })
          | Except.error e =>
            (Except.error e,
             { applyDevPromotion (strToLower s) st with
                 resolverCalls :=
                   (applyDevPromotion (strToLower s) st).resolverCalls + 1 })
        else
          (Except.error (PyError.keyError (strToLower s)), applyDevPromotion (strToLower s) st)

theorem applyDevPromotion_cache (low : String) (st : GetConfigState) :
    (applyDevPromotion low st).cache = st.cache := by
  unfold applyDevPromotion
  split <;> rfl

theorem applyDevPromotion_nextId (low : String) (st : GetConfigState) :
    (applyDevPromotion low st).nextId = st.nextId := by
  unfold applyDevPromotion
  split <;> rfl

theorem applyDevPromotion_resolverCalls (low : String) (st : GetConfigState) :
    (applyDevPromotion low st).resolverCalls = st.resolverCalls := by
  unfold applyDevPromotion
  split <;> rfl

theorem get_config_hit (resolve : Nat → Except PyError Unit)
    (env : Option String) (st : GetConfigState) (id : Nat)
    (hc : assocLookup st.cache env = some id) :
    get_config resolve env st = (Except.ok id, st) := by
  unfold get_config
  rw [hc]

theorem get_config_miss_none (resolve : Nat → Except PyError Unit)
    (st : GetConfigState)
    (hc : assocLookup st.cache Option.none = Option.none) :
    get_config resolve Option.none st =
      (Except.error (PyError.valueError envStateMsg), st) := by
  unfold get_config
  rw [hc]

theorem get_config_miss_some (resolve : Nat → Except PyError Unit)
    (s : String) (st : GetConfigState)
    (hc : assocLookup st.cache (some s) = Option.none) :
    get_config resolve (some s) st =
      (if s = "" then (Except.error (PyError.valueError envStateMsg), st)
       else
         if recognizedEnv (strToLower s) then
           match resolve (applyDevPromotion (strToLower s) st).resolverCalls with
           | Except.ok _ =>
             (Except.ok (applyDevPromotion (strToLower s) st).nextId,
              { applyDevPromotion (strToLower s) st with
                  cache := (some s, (applyDevPromotion (strToLower s) st).nextId) ::
                    (applyDevPromotion (strToLower s) st).cache,
                  nextId := (applyDevPromotion (strToLower s) st).nextId + 1,
                  resolverCalls :=
                    (applyDevPromotion (strToLower s) st).resolverCalls + 1 })
           | Except.error e =>
             (Except.error e,
              { applyDevPromotion (strToLower s) st with
                  resolverCalls :=
                    (applyDevPromotion (strToLower s) st).resolverCalls + 1 })
         else
           (Except.error (PyError.keyError (strToLower s)),
            applyDevPromotion (strToLower s) st)) := by
  unfold get_config
  rw [hc]

theorem retryGo_succ {α E : Type} (op : Nat → Except E α) (backoff : ℚ)
    (i r : Nat) (wait : ℚ) :
    retryGo op backoff i (r + 1) wait =
      match op i with
      | Except.ok v => (Except.ok (some v), 1, [])
      | Except.error e =>
        if r = 0 then (Except.error e, 1, [])
        else
          ((retryGo op backoff (i + 1) r (wait * backoff)).1,
           (retryGo op backoff (i + 1) r (wait * backoff)).2.1 + 1,
           wait :: (retryGo op backoff (i + 1) r (wait * backoff)).2.2) := rfl

theorem retryGo_const_fail {α E : Type} (op : Nat → Except E α) (err : Nat → E)
    (hop : ∀ i, op i = Except.error (err i)) (backoff : ℚ) :
    ∀ (r i : Nat) (wait : ℚ),
      retryGo op backoff i (r + 1) wait =
        (Except.error (err (i + r)), r + 1,
         (List.range r).map (fun j => wait * backoff ^ j)) := by
  intro r
  induction r with
  | zero =>
    intro i wait
    simp [retryGo, hop i]
  | succ r ih =>
    intro i wait
    have h1 := ih (i + 1) (wait * backoff)
    have hlist : (List.range (r + 1)).map (fun j => wait * backoff ^ j) =
        wait :: (List.range r).map (fun j => wait * backoff * backoff ^ j) := by
      rw [List.range_succ_eq_map, List.map_cons, List.map_map]
      refine congrArg₂ _ (by simp) (List.map_congr_left ?_)
      intro j hj
      simp only [Function.comp]
      rw [pow_succ]
      ring
    rw [retryGo_succ, hop i]
    dsimp only
    rw [if_neg (show ¬(r + 1 = 0) by omega), h1, hlist,
        show i + 1 + r = i + (r + 1) from by omega]

/-- C2: for an operation failing on every invocation, `retry(attempts,
delay, backoff)` invokes it exactly `attempts` times, sleeps
`delay * backoff ^ i` between the (i+1)-th and (i+2)-th invocation for
`i = 0, …, attempts - 2`, and then raises the error produced by the
final invocation unchanged (the very same error value, not wrapped in
another kind).  `attempts ≥ 1` is the wrapper's documented
precondition (with `attempts = 0` the Python loop body never runs and
the wrapper returns `None`). -/
theorem retry_always_fails {α E : Type} (op : Nat → Except E α) (err : Nat → E)
    (hop : ∀ i, op i = Except.error (err i)) (attempts : Nat) (h : 1 ≤ attempts)
    (delay backoff : ℚ) :
    retryExec op attempts delay backoff =
      (Except.error (err (attempts - 1)), attempts,
       (List.range (attempts - 1)).map (fun i => delay * backoff ^ i)) := by
  obtain ⟨r, rfl⟩ : ∃ r, attempts = r + 1 := ⟨attempts - 1, by omega⟩
  simpa [retryExec] using retryGo_const_fail op err hop backoff r 0 delay

/-- Witness for C2: with the default policy (3 attempts, 1/4 initial
delay, backoff 2) and an operation that fails with error `i` on its
(i+1)-th invocation, the wrapper makes exactly 3 invocations, sleeps
1/4 then 1/2, and raises the third invocation's error. -/
theorem retry_always_fails_witness :
    retryExec (fun i => (Except.error i : Except Nat Unit)) 3 (1/4 : ℚ) 2 =
      (Except.error 2, 3, [1/4, 1/2]) := by
  have h := @retry_always_fails Unit Nat (fun i => Except.error i)
    (fun i => i) (fun _ => rfl) 3 (by norm_num) (1/4) 2
  rw [h]
  norm_num [List.range_succ]

/-- The secret field mapping of the C1 scenario: `API_KEY` is bound to
the aws backend (spec §8 example shape). -/
def c1Map : SecretMapping := ⟨["API_KEY"], [], []⟩

/-- A backend stub that fails on its first invocation and succeeds on
its second (so N = 2 ≤ 3 in the claim's terms); the threaded `Nat`
counts backend invocations. -/
def c1Stub : BackendKind → String → Nat → Except PyError String × Nat :=
  fun _ _ n =>
    (if n + 1 = 2 then Except.ok "abc" else Except.error (PyError.exn "transient"),
     n + 1)

/-- C1 counterexample: the claim predicts that with a backend stub
succeeding on the 2nd attempt (N = 2 ≤ 3) resolution succeeds and the
backend is invoked exactly 2 times.  In the source the secret helpers
are called by `resolve_secrets` directly — the `retry` decorator is
defined in utils.py but applied to none of them — so resolution
propagates the first failure and the backend is invoked exactly once:
the run returns the stub's transient error with invocation count 1. -/
theorem resolve_no_retry_counterexample :
    resolve_secrets c1Map c1Stub [("API_KEY", RawValue.str "secret-ref-123")] 0 =
      (Except.error (PyError.exn "transient"), 1) := by
  rfl

/-- C1 (amended): for every field of the raw payload that is classified
as secret-bound, `resolve_secrets` dispatches the corresponding
backend helper directly, with no retry wrapping: the backend is
invoked exactly once for that field (the invocation counter advances
from `n` to `n + 1`), a failure of that single invocation is
propagated immediately, and a success substitutes the fetched value
and continues with the remaining fields. -/
theorem resolve_dispatch_once (m : SecretMapping)
    (f : BackendKind → String → Except PyError String)
    (name ref : String) (k : BackendKind) (rest : List (String × RawValue))
    (n : Nat) (hne : ref ≠ "") (hk : classify m name = some k) :
    (∀ e, f k ref = Except.error e →
        resolve_secrets m (fun b r cnt => (f b r, cnt + 1))
          ((name, RawValue.str ref) :: rest) n = (Except.error e, n + 1)) ∧
    (∀ v, f k ref = Except.ok v →
        resolve_secrets m (fun b r cnt => (f b r, cnt + 1))
          ((name, RawValue.str ref) :: rest) n =
          ((resolve_secrets m (fun b r cnt => (f b r, cnt + 1)) rest (n + 1)).1.map
             (fun l => (name, RawValue.str v) :: l),
           (resolve_secrets m (fun b r cnt => (f b r, cnt + 1)) rest (n + 1)).2)) := by
  constructor
  · intro e he
    simp [resolve_secrets, isSecretEligible, hne, hk, RawValue.asString, he]
  · intro v hv
    simp [resolve_secrets, isSecretEligible, hne, hk, RawValue.asString, hv]

/-- Witness for C1 (amended): a two-field payload with the classified
`API_KEY` field first; the stub fails its single invocation, the error
propagates with one invocation counted. -/
theorem resolve_dispatch_once_witness :
    resolve_secrets c1Map
      (fun b r cnt => ((fun (_ : BackendKind) (_ : String) =>
          (Except.error (PyError.exn "transient") : Except PyError String)) b r,
        cnt + 1))
      [("API_KEY", RawValue.str "secret-ref-123"), ("LOG_LEVEL", RawValue.str "INFO")]
      0 = (Except.error (PyError.exn "transient"), 1) := by
  have h := (resolve_dispatch_once c1Map
    (fun _ _ => Except.error (PyError.exn "transient")) "API_KEY" "secret-ref-123"
    BackendKind.aws [("LOG_LEVEL", RawValue.str "INFO")] 0
    (by decide) (by decide)).1 (PyError.exn "transient") rfl
  exact h

/-- C3: resolution is all-or-nothing.  If every field of a payload
before some classified field resolves successfully and that field's
backend call raises, then `resolve_secrets` on the whole payload
returns exactly that error paired with the state reached by the
failing call: the error is propagated unchanged, the fields after the
failing one never invoke a backend (the threaded state shows no
further activity), and no partial mapping is returned. -/
theorem resolve_fail_fast {σ : Type} (m : SecretMapping)
    (fetch : BackendKind → String → σ → Except PyError String × σ)
    (pre : List (String × RawValue)) (s s1 s2 : σ)
    (l : List (String × RawValue)) (name ref : String) (k : BackendKind)
    (e : PyError) (rest : List (String × RawValue))
    (hpre : resolve_secrets m fetch pre s = (Except.ok l, s1))
    (hne : ref ≠ "") (hk : classify m name = some k)
    (hf : fetch k ref s1 = (Except.error e, s2)) :
    resolve_secrets m fetch (pre ++ (name, RawValue.str ref) :: rest) s =
      (Except.error e, s2) := by
  induction pre generalizing s l with
  | nil =>
    simp only [resolve_secrets, Prod.mk.injEq, Except.ok.injEq] at hpre
    obtain ⟨rfl, rfl⟩ := hpre
    simp [resolve_secrets, isSecretEligible, hne, hk, RawValue.asString, hf]
  | cons p pre ih =>
    obtain ⟨n0, v0⟩ := p
    rw [List.cons_append]
    by_cases hv : isSecretEligible v0
    · cases hcl : classify m n0 with
      | none =>
        simp only [resolve_secrets, hv, hcl, if_true] at hpre ⊢
        rcases hres : resolve_secrets m fetch pre s with ⟨r', s'⟩
        rw [hres] at hpre
        cases r' with
        | error e' => simp [Except.map] at hpre
        | ok l' =>
          simp only [Except.map, Prod.mk.injEq, Except.ok.injEq] at hpre
          obtain ⟨-, hs⟩ := hpre
          subst hs
          rw [ih s l' hres]
          simp [Except.map]
      | some k0 =>
        simp only [resolve_secrets, hv, hcl, if_true] at hpre ⊢
        rcases hcall : fetch k0 v0.asString s with ⟨rc, sc⟩
        rw [hcall] at hpre
        cases rc with
        | error e' => simp at hpre
        | ok sec =>
          simp only [Except.map, Prod.mk.injEq, Except.ok.injEq] at hpre ⊢
          rcases hres : resolve_secrets m fetch pre sc with ⟨r', s'⟩
          rw [hres] at hpre
          cases r' with
          | error e' => simp at hpre
          | ok l' =>
            simp only [Prod.mk.injEq, Except.ok.injEq] at hpre
            obtain ⟨-, hs⟩ := hpre
            subst hs
            rw [ih sc l' hres]
            simp [Except.map]
    · simp only [resolve_secrets, hv, if_false] at hpre ⊢
      rcases hres : resolve_secrets m fetch pre s with ⟨r', s'⟩
      rw [hres] at hpre
      cases r' with
      | error e' => simp [Except.map] at hpre
      | ok l' =>
        simp only [Except.map, Prod.mk.injEq, Except.ok.injEq, Bool.false_eq_true,
          if_false] at hpre
        obtain ⟨-, hs⟩ := hpre
        subst hs
        rw [ih s l' hres]
        simp [Except.map]

/-- Witness for C3: a payload whose unclassified first field resolves,
whose classified second field's backend call fails, and which has a
third field after the failure: the whole resolution returns the
backend's error with exactly one backend invocation counted — the
third field is never dispatched and no partial mapping is returned. -/
theorem resolve_fail_fast_witness :
    resolve_secrets (⟨["API_KEY"], [], []⟩ : SecretMapping)
      (fun _ _ (n : Nat) => (Except.error (PyError.exn "boom"), n + 1))
      [("LOG_LEVEL", RawValue.str "INFO"), ("API_KEY", RawValue.str "ref"),
       ("OTHER", RawValue.str "x")] 0 =
      (Except.error (PyError.exn "boom"), 1) := by
  have h := resolve_fail_fast (⟨["API_KEY"], [], []⟩ : SecretMapping)
    (fun _ _ (n : Nat) => (Except.error (PyError.exn "boom"), n + 1))
    [("LOG_LEVEL", RawValue.str "INFO")] 0 0 1
    [("LOG_LEVEL", RawValue.str "INFO")] "API_KEY" "ref" BackendKind.aws
    (PyError.exn "boom") [("OTHER", RawValue.str "x")]
    rfl (by decide) (by decide) rfl
  simpa using h

/-- C4: identity passthrough.  Whenever `resolve_secrets` returns a
resolved payload, it is field-for-field aligned with the raw payload,
and every field whose name lies in none of the three backend field
sets is returned exactly as it came in (same name, same raw value). -/
theorem resolve_identity_passthrough {σ : Type} (m : SecretMapping)
    (fetch : BackendKind → String → σ → Except PyError String × σ)
    (data : List (String × RawValue)) (s s' : σ)
    (out : List (String × RawValue))
    (h : resolve_secrets m fetch data s = (Except.ok out, s')) :
    List.Forall₂ (fun p q : String × RawValue =>
      (p.1 ∉ m.aws ∧ p.1 ∉ m.azure ∧ p.1 ∉ m.gcp) → q = p) data out := by
  induction data generalizing s out with
  | nil =>
    simp only [resolve_secrets, Prod.mk.injEq, Except.ok.injEq] at h
    obtain ⟨rfl, -⟩ := h
    exact List.Forall₂.nil
  | cons p rest ih =>
    obtain ⟨n0, v0⟩ := p
    by_cases hv : isSecretEligible v0
    · cases hcl : classify m n0 with
      | none =>
        simp only [resolve_secrets, hv, hcl, if_true] at h
        rcases hres : resolve_secrets m fetch rest s with ⟨r', s1⟩
        rw [hres] at h
        cases r' with
        | error e' => simp [Except.map] at h
        | ok l' =>
          simp only [Except.map, Prod.mk.injEq, Except.ok.injEq] at h
          obtain ⟨hl, hs⟩ := h
          subst hl
          subst hs
          exact List.Forall₂.cons (fun _ => rfl) (ih s l' hres)
      | some k0 =>
        simp only [resolve_secrets, hv, hcl, if_true] at h
        rcases hcall : fetch k0 v0.asString s with ⟨rc, sc⟩
        rw [hcall] at h
        cases rc with
        | error e' => simp at h
        | ok sec =>
          simp only [Except.map, Prod.mk.injEq, Except.ok.injEq] at h
          rcases hres : resolve_secrets m fetch rest sc with ⟨r', s1⟩
          rw [hres] at h
          cases r' with
          | error e' => simp at h
          | ok l' =>
            simp only [Prod.mk.injEq, Except.ok.injEq] at h
            obtain ⟨hl, hs⟩ := h
            subst hl
            subst hs
            refine List.Forall₂.cons (fun hcontra => absurd hcl ?_) (ih sc l' hres)
            obtain ⟨h1, h2, h3⟩ := hcontra
            simp [classify, h1, h2, h3]
    · simp only [resolve_secrets, hv, Bool.false_eq_true, if_false] at h
      rcases hres : resolve_secrets m fetch rest s with ⟨r', s1⟩
      rw [hres] at h
      cases r' with
      | error e' => simp [Except.map] at h
      | ok l' =>
        simp only [Except.map, Prod.mk.injEq, Except.ok.injEq] at h
        obtain ⟨hl, hs⟩ := h
        subst hl
        subst hs
        exact List.Forall₂.cons (fun _ => rfl) (ih s l' hres)

/-- Witness for C4: resolving a payload with one aws-classified field
and one unclassified field; the unclassified `LOG_LEVEL` comes back
exactly as it went in. -/
theorem resolve_identity_passthrough_witness :
    List.Forall₂ (fun p q : String × RawValue =>
      (p.1 ∉ (⟨["API_KEY"], [], []⟩ : SecretMapping).aws ∧
       p.1 ∉ (⟨["API_KEY"], [], []⟩ : SecretMapping).azure ∧
       p.1 ∉ (⟨["API_KEY"], [], []⟩ : SecretMapping).gcp) → q = p)
      [("API_KEY", RawValue.str "ref"), ("LOG_LEVEL", RawValue.str "INFO")]
      [("API_KEY", RawValue.str "abc"), ("LOG_LEVEL", RawValue.str "INFO")] := by
  exact resolve_identity_passthrough (⟨["API_KEY"], [], []⟩ : SecretMapping)
    (fun _ _ (n : Nat) => (Except.ok "abc", n + 1))
    [("API_KEY", RawValue.str "ref"), ("LOG_LEVEL", RawValue.str "INFO")] 0 1
    [("API_KEY", RawValue.str "abc"), ("LOG_LEVEL", RawValue.str "INFO")] rfl

/-- C5: classification eligibility.  A field whose raw value is Python
`None`, a boolean, a non-string value, or the empty string passes
through unchanged and invokes no backend — the resolver's threaded
state is handed to the remaining fields untouched — for every secret
mapping, hence even when the field's name appears in a backend's field
set. -/
theorem resolve_ineligible_passthrough {σ : Type} (m : SecretMapping)
    (fetch : BackendKind → String → σ → Except PyError String × σ)
    (name : String) (v : RawValue) (rest : List (String × RawValue)) (s : σ)
    (h : v = RawValue.null ∨ (∃ b, v = RawValue.bool b) ∨
         (∃ n, v = RawValue.int n) ∨ v = RawValue.str "") :
    resolve_secrets m fetch ((name, v) :: rest) s =
      ((resolve_secrets m fetch rest s).1.map (fun l => (name, v) :: l),
       (resolve_secrets m fetch rest s).2) := by
  have hv : isSecretEligible v = false := by
    rcases h with rfl | ⟨b, rfl⟩ | ⟨n, rfl⟩ | rfl <;> simp [isSecretEligible]
  simp [resolve_secrets, hv]

/-- Witness for C5: a boolean-valued field whose name is in the aws
field set passes through unchanged with zero backend invocations. -/
theorem resolve_ineligible_passthrough_witness :
    resolve_secrets (⟨["FLAG"], [], []⟩ : SecretMapping)
      (fun _ _ (n : Nat) => (Except.ok "abc", n + 1))
      [("FLAG", RawValue.bool true)] 0 =
      (Except.ok [("FLAG", RawValue.bool true)], 0) := by
  have h := resolve_ineligible_passthrough (⟨["FLAG"], [], []⟩ : SecretMapping)
    (fun _ _ (n : Nat) => (Except.ok "abc", n + 1))
    "FLAG" (RawValue.bool true) [] 0 (Or.inr (Or.inl ⟨true, rfl⟩))
  rw [h]
  rfl

/-- C6: memoization.  If `get_config` returns an instance id for some
environment argument, an immediately subsequent call with the same
argument returns the very same id (the identical cached instance) and
leaves the state completely unchanged — in particular the resolver is
not re-invoked by the second call — and the first call itself invoked
the resolver at most once, so across the two calls the resolver runs
at most once. -/
theorem get_config_memoizes (resolve : Nat → Except PyError Unit)
    (env : Option String) (st st1 : GetConfigState) (id : Nat)
    (h : get_config resolve env st = (Except.ok id, st1)) :
    get_config resolve env st1 = (Except.ok id, st1) ∧
    st1.resolverCalls ≤ st.resolverCalls + 1 := by
  cases hc : assocLookup st.cache env with
  | some j =>
    rw [get_config_hit resolve env st j hc] at h
    simp only [Prod.mk.injEq, Except.ok.injEq] at h
    obtain ⟨rfl, rfl⟩ := h
    exact ⟨get_config_hit resolve env st j hc, by omega⟩
  | none =>
    cases env with
    | none =>
      rw [get_config_miss_none resolve st hc] at h
      simp at h
    | some s =>
      rw [get_config_miss_some resolve s st hc] at h
      by_cases hs : s = ""
      · rw [if_pos hs] at h
        simp at h
      · rw [if_neg hs] at h
        by_cases hr : recognizedEnv (strToLower s)
        · rw [if_pos hr] at h
          cases hre : resolve (applyDevPromotion (strToLower s) st).resolverCalls with
          | error e =>
            rw [hre] at h
            simp at h
          | ok u =>
            rw [hre] at h
            simp only [Prod.mk.injEq, Except.ok.injEq] at h
            obtain ⟨rfl, rfl⟩ := h
            constructor
            · refine get_config_hit resolve (some s) _ _ ?_
              simp [assocLookup]
            · simp [applyDevPromotion_resolverCalls]
        · rw [if_neg hr] at h
          simp at h

/-- Witness for C6: a fresh state, a resolver that succeeds, and the
`prod` selector: the first call constructs instance 0 performing one
resolution; the second call returns the same instance 0 and the very
same state. -/
theorem get_config_memoizes_witness :
    get_config (fun _ => Except.ok ()) (some "prod")
      (⟨[], [(some "prod", 0)], 1, 1⟩ : GetConfigState) =
      (Except.ok 0, (⟨[], [(some "prod", 0)], 1, 1⟩ : GetConfigState)) ∧
    (⟨[], [(some "prod", 0)], 1, 1⟩ : GetConfigState).resolverCalls ≤
      (⟨[], [], 0, 0⟩ : GetConfigState).resolverCalls + 1 :=
  get_config_memoizes (fun _ => Except.ok ()) (some "prod")
    ⟨[], [], 0, 0⟩ ⟨[], [(some "prod", 0)], 1, 1⟩ 0 rfl

/-- C7: an unset or empty selector makes `get_config` raise the
`ENV_STATE is not set` `ValueError`, and a set but unrecognized
selector makes it raise a `KeyError` from the `configs` dict lookup —
in both cases with the process state returned exactly as it was, so no
backend is contacted, no resolution work begins and nothing is cached.
The hypothesis that the cache holds no entry for the argument reflects
that entries are only ever created by successful calls, which require
a recognized selector. -/
theorem get_config_invalid_env_fails (resolve : Nat → Except PyError Unit)
    (env : Option String) (st : GetConfigState)
    (hc : assocLookup st.cache env = Option.none) :
    (envTruthy env = false →
       get_config resolve env st =
         (Except.error (PyError.valueError envStateMsg), st)) ∧
    (∀ s, env = some s → s ≠ "" → recognizedEnv (strToLower s) = false →
       get_config resolve env st =
         (Except.error (PyError.keyError (strToLower s)), st)) := by
  constructor
  · intro ht
    cases env with
    | none => exact get_config_miss_none resolve st hc
    | some s =>
      have hs : s = "" := by
        simpa [envTruthy] using ht
      subst hs
      rw [get_config_miss_some resolve "" st hc]
      simp
  · intro s hseq hs hr
    subst hseq
    have hd : (strToLower s) ≠ "dev" := by
      intro hdev
      rw [recognizedEnv, hdev] at hr
      simp at hr
    rw [get_config_miss_some resolve s st hc, if_neg hs,
      if_neg (show ¬(recognizedEnv (strToLower s) = true) by simp [hr])]
    unfold applyDevPromotion
    rw [if_neg hd]

/-- Witness for C7: with an empty cache and the unrecognized selector
`staging`, `get_config` raises `KeyError("staging")` and returns the
state untouched. -/
theorem get_config_invalid_env_fails_witness :
    get_config (fun _ => Except.ok ()) (some "staging")
      (⟨[], [], 0, 0⟩ : GetConfigState) =
      (Except.error (PyError.keyError "staging"),
       (⟨[], [], 0, 0⟩ : GetConfigState)) := by
  have h := (get_config_invalid_env_fails (fun _ => Except.ok ())
    (some "staging") ⟨[], [], 0, 0⟩ rfl).2 "staging" rfl (by decide) (by decide)
  simpa using h

/-- C10: failure is not cached.  If `get_config` raises, the cache is
exactly as it was (no positive or negative entry was stored) and the
fresh-object counter is unchanged; consequently a subsequent call with
the same (valid) argument re-invokes the resolver — and succeeds with
a freshly constructed instance if the resolver now succeeds — rather
than returning or re-raising a memoized failure. -/
theorem get_config_failure_not_cached (resolve : Nat → Except PyError Unit)
    (env : Option String) (st st1 : GetConfigState) (e : PyError)
    (h : get_config resolve env st = (Except.error e, st1)) :
    st1.cache = st.cache ∧ st1.nextId = st.nextId ∧
    (∀ u s, env = some s → s ≠ "" → recognizedEnv (strToLower s) = true →
       resolve st1.resolverCalls = Except.ok u →
       (get_config resolve env st1).1 = Except.ok st1.nextId ∧
       (get_config resolve env st1).2.resolverCalls = st1.resolverCalls + 1) := by
  cases hc : assocLookup st.cache env with
  | some j =>
    rw [get_config_hit resolve env st j hc] at h
    simp at h
  | none =>
    cases env with
    | none =>
      rw [get_config_miss_none resolve st hc] at h
      simp only [Prod.mk.injEq, Except.error.injEq] at h
      obtain ⟨-, rfl⟩ := h
      exact ⟨rfl, rfl, fun u s hseq => by simp at hseq⟩
    | some s =>
      rw [get_config_miss_some resolve s st hc] at h
      by_cases hs : s = ""
      · rw [if_pos hs] at h
        simp only [Prod.mk.injEq, Except.error.injEq] at h
        obtain ⟨-, rfl⟩ := h
        refine ⟨rfl, rfl, fun u s' hseq hs' hr' hres2 => ?_⟩
        obtain rfl : s = s' := by simpa using hseq
        exact absurd hs hs'
      · rw [if_neg hs] at h
        by_cases hr : recognizedEnv (strToLower s)
        · rw [if_pos hr] at h
          cases hre : resolve (applyDevPromotion (strToLower s) st).resolverCalls with
          | ok u =>
            rw [hre] at h
            simp at h
          | error e' =>
            rw [hre] at h
            simp only [Prod.mk.injEq, Except.error.injEq] at h
            obtain ⟨rfl, hst⟩ := h
            have hcache : st1.cache = st.cache := by
              rw [← hst]
              exact applyDevPromotion_cache _ _
            have hnext : st1.nextId = st.nextId := by
              rw [← hst]
              exact applyDevPromotion_nextId _ _
            refine ⟨hcache, hnext, fun u s' hseq hs' hr' hres2 => ?_⟩
            obtain rfl : s = s' := by simpa using hseq
            have hc2 : assocLookup st1.cache (some s) = Option.none := by
              rw [hcache]
              exact hc
            rw [get_config_miss_some resolve s st1 hc2, if_neg hs, if_pos hr']
            have hres3 : resolve
                (applyDevPromotion (strToLower s) st1).resolverCalls =
                Except.ok u := by
              rw [applyDevPromotion_resolverCalls]
              exact hres2
            rw [hres3]
            constructor
            · show Except.ok (applyDevPromotion (strToLower s) st1).nextId =
                Except.ok st1.nextId
              rw [applyDevPromotion_nextId]
            · show (applyDevPromotion (strToLower s) st1).resolverCalls + 1 =
                st1.resolverCalls + 1
              rw [applyDevPromotion_resolverCalls]
        · rw [if_neg hr] at h
          simp only [Prod.mk.injEq, Except.error.injEq] at h
          obtain ⟨-, rfl⟩ := h
          refine ⟨applyDevPromotion_cache _ _, applyDevPromotion_nextId _ _,
            fun u s' hseq hs' hr' hres2 => ?_⟩
          obtain rfl : s = s' := by simpa using hseq
          exact absurd hr' (by simp [hr])

/-- Witness for C10: a resolver that fails on its first invocation and
succeeds on its second, with the `prod` selector and an empty cache:
the failing first call leaves the cache and object counter untouched,
and the second call re-invokes the resolver and succeeds. -/
theorem get_config_failure_not_cached_witness :
    (⟨[], [], 0, 1⟩ : GetConfigState).cache =
      (⟨[], [], 0, 0⟩ : GetConfigState).cache ∧
    (get_config
        (fun n => if n = 0 then Except.error (PyError.exn "net") else Except.ok ())
        (some "prod") (⟨[], [], 0, 1⟩ : GetConfigState)).1 = Except.ok 0 := by
  have h := get_config_failure_not_cached
    (fun n => if n = 0 then Except.error (PyError.exn "net") else Except.ok ())
    (some "prod") ⟨[], [], 0, 0⟩ ⟨[], [], 0, 1⟩ (PyError.exn "net") rfl
  exact ⟨h.1, (h.2.2 () "prod" rfl (by decide) (by decide) rfl).1⟩

/-- C8 counterexample: a successful response whose text payload
(`SecretString`) is present but empty and whose binary payload holds
`bin-secret`.  The claim predicts the fetch yields the present text
payload `""`; the source's truthiness check (`if not secret_value`)
treats the empty string like an absent one and returns the binary
payload instead. -/
theorem aws_text_payload_counterexample :
    (aws_secret_helper "secret-ref"
        (AwsCall.success ⟨some "", some "bin-secret"⟩)).1 =
      Except.ok "bin-secret" ∧
    (aws_secret_helper "secret-ref"
        (AwsCall.success ⟨some "", some "bin-secret"⟩)).1 ≠
      Except.ok "" := by
  refine ⟨rfl, ?_⟩
  intro hcon
  rw [show (aws_secret_helper "secret-ref"
      (AwsCall.success ⟨some "", some "bin-secret"⟩)).1 =
      Except.ok "bin-secret" from rfl] at hcon
  simp at hcon

/-- C8 (amended): for every reference, `aws_secret_helper` maps a
client error whose code is `ResourceNotFoundException` to a
distinguished not-found `ValueError` carrying the reference; re-raises
any other client error unchanged; and on a successful response yields
the text payload if present and non-empty, otherwise the binary
payload (decoded to text) if present and non-empty, and fails with the
`has no SecretString or SecretBinary` error when neither a non-empty
text nor a non-empty binary payload is present. -/
theorem aws_helper_spec (value code msg sv : String) (r : AwsResponse) :
    ((aws_secret_helper value
        (AwsCall.clientError "ResourceNotFoundException" msg)).1 =
       Except.error (PyError.valueError ("AWS secret not found: " ++ value))) ∧
    (code ≠ "ResourceNotFoundException" →
       (aws_secret_helper value (AwsCall.clientError code msg)).1 =
         Except.error (PyError.clientError code msg)) ∧
    (r.secretString = some sv → sv ≠ "" →
       (aws_secret_helper value (AwsCall.success r)).1 = Except.ok sv) ∧
    ((r.secretString = Option.none ∨ r.secretString = some "") →
       r.secretBinary = some sv → sv ≠ "" →
       (aws_secret_helper value (AwsCall.success r)).1 = Except.ok sv) ∧
    ((r.secretString = Option.none ∨ r.secretString = some "") →
       (r.secretBinary = Option.none ∨ r.secretBinary = some "") →
       (aws_secret_helper value (AwsCall.success r)).1 =
         Except.error (PyError.valueError
           ("AWS secret " ++ value ++ " has no SecretString or SecretBinary"))) := by
  refine ⟨?_, ?_, ?_, ?_, ?_⟩
  · simp [aws_secret_helper]
  · intro hcode
    simp [aws_secret_helper, hcode]
  · intro hss hsv
    simp [aws_secret_helper, hss, hsv]
  · intro hss hsb hsv
    rcases hss with hss | hss <;> simp [aws_secret_helper, hss, hsb, hsv]
  · intro hss hsb
    rcases hss with hss | hss <;> rcases hsb with hsb | hsb <;>
      simp [aws_secret_helper, hss, hsb]

/-- Witness for C8 (amended): a throttling client error is re-raised
unchanged, and a response with a non-empty text payload yields that
payload. -/
theorem aws_helper_spec_witness :
    (aws_secret_helper "ref" (AwsCall.clientError "Throttling" "slow")).1 =
      Except.error (PyError.clientError "Throttling" "slow") ∧
    (aws_secret_helper "ref" (AwsCall.success ⟨some "tops", Option.none⟩)).1 =
      Except.ok "tops" := by
  have h := aws_helper_spec "ref" "Throttling" "slow" "tops"
    ⟨some "tops", Option.none⟩
  exact ⟨h.2.1 (by decide), h.2.2.1 rfl (by decide)⟩

/-- C9: secret non-disclosure in logs.  For each backend helper, every
successful fetch emits exactly one log record — the debug trace naming
the store and the reference — and that record does not depend on the
fetched value in any way; consequently two runs of the same fetch that
return different secret values for the same reference emit identical
log output. -/
theorem secret_not_logged (ref v : String) (c : AwsCall) (p vu : Option String)
    (g : String → GcpCall) (a : AzureCall) :
    ((aws_secret_helper ref c).1 = Except.ok v →
       (aws_secret_helper ref c).2 =
         [⟨LogLevel.debug, "Fetched secret from AWS Secrets Manager: " ++ ref⟩]) ∧
    ((gcp_secret_helper ref p g).1 = Except.ok v →
       (gcp_secret_helper ref p g).2 =
         [⟨LogLevel.debug, "Fetched secret from GCP Secret Manager: " ++ ref⟩]) ∧
    ((azure_secret_helper ref vu a).1 = Except.ok v →
       (azure_secret_helper ref vu a).2 =
         [⟨LogLevel.debug, "Fetched secret from Azure Key Vault: " ++ ref⟩]) := by
  refine ⟨?_, ?_, ?_⟩
  · intro hok
    cases c with
    | success r =>
      by_cases h1 : r.secretString.getD "" ≠ ""
      · simp [aws_secret_helper, h1]
      · by_cases h2 : r.secretBinary.getD "" ≠ ""
        · simp [aws_secret_helper, h1, h2]
        · simp [aws_secret_helper, h1, h2] at hok
    | clientError code msg =>
      by_cases h1 : code = "ResourceNotFoundException"
      · simp [aws_secret_helper, h1] at hok
      · simp [aws_secret_helper, h1] at hok
  · intro hok
    by_cases h1 : p.getD "" = ""
    · simp [gcp_secret_helper, h1] at hok
    · cases hg : g ("projects/" ++ p.getD "" ++ "/secrets/" ++ ref ++
          "/versions/latest") with
      | success payload => simp [gcp_secret_helper, h1, hg]
      | failure msg => simp [gcp_secret_helper, h1, hg] at hok
  · intro hok
    by_cases h1 : vu.getD "" = ""
    · simp [azure_secret_helper, h1] at hok
    · cases a with
      | success w => simp [azure_secret_helper, h1]
      | failure msg => simp [azure_secret_helper, h1] at hok

/-- Witness for C9: for each of the three backends, two successful
fetches of the same reference returning different secret values emit
identical log output. -/
theorem secret_not_logged_witness :
    (aws_secret_helper "ref" (AwsCall.success ⟨some "s1", Option.none⟩)).2 =
      (aws_secret_helper "ref" (AwsCall.success ⟨some "s2", Option.none⟩)).2 ∧
    (gcp_secret_helper "ref" (some "proj") (fun _ => GcpCall.success "g1")).2 =
      (gcp_secret_helper "ref" (some "proj") (fun _ => GcpCall.success "g2")).2 ∧
    (azure_secret_helper "ref" (some "vault") (AzureCall.success "a1")).2 =
      (azure_secret_helper "ref" (some "vault") (AzureCall.success "a2")).2 := by
  refine ⟨?_, ?_, ?_⟩
  · rw [(secret_not_logged "ref" "s1" (AwsCall.success ⟨some "s1", Option.none⟩)
        Option.none Option.none (fun _ => GcpCall.failure "") (AzureCall.failure "")).1 rfl,
      (secret_not_logged "ref" "s2" (AwsCall.success ⟨some "s2", Option.none⟩)
        Option.none Option.none (fun _ => GcpCall.failure "") (AzureCall.failure "")).1 rfl]
  · rw [(secret_not_logged "ref" "g1" (AwsCall.clientError "" "") (some "proj")
        Option.none (fun _ => GcpCall.success "g1") (AzureCall.failure "")).2.1 rfl,
      (secret_not_logged "ref" "g2" (AwsCall.clientError "" "") (some "proj")
        Option.none (fun _ => GcpCall.success "g2") (AzureCall.failure "")).2.1 rfl]
  · rw [(secret_not_logged "ref" "a1" (AwsCall.clientError "" "") Option.none
        (some "vault") (fun _ => GcpCall.failure "") (AzureCall.success "a1")).2.2 rfl,
      (secret_not_logged "ref" "a2" (AwsCall.clientError "" "") Option.none
        (some "vault") (fun _ => GcpCall.failure "") (AzureCall.success "a2")).2.2 rfl]
